import Mathlib

/-!
Verification development for the `summit-lab-helpers` scripts
(`clone_oppt_file.py`, `create_sites.py`, `clone_oppt.py`).

The scripts orchestrate outbound HTTP and Google Drive API calls.  Those
external collaborators are modelled by explicit state (`DriveState`,
`Backend`) and by per-call outcome oracles (`Except`-valued environment
fields): the scripts' own control flow, queries, and result structures
are translated directly from the Python source.  Mutating calls are
additionally recorded in an effect trace (`DriveOp`, `HttpOp`) so that
frame properties ("no delete was issued", "no PATCH was issued") are
statable.  Python truthiness of strings (`if site_id:`) is modelled
explicitly (`truthyStr`), and Python's f-string `{n:03d}` by
`formatNum3`.
-/

namespace SummitLab

/-- A file or folder known to Google Drive, as the scripts see it through
`files().list` (fields: id, name, parents, mimeType, trashed). -/
structure DriveFile where
  id : String
  name : String
  parents : List String
  isFolder : Bool
  trashed : Bool
deriving Repr, DecidableEq

/-- The Drive contents visible to the service account, plus a counter the
server uses to mint fresh ids for created/copied files. -/
structure DriveState where
  files : List DriveFile
  nextId : Nat
deriving Repr, DecidableEq

/-- Fresh server-assigned id for the `nextId`-th created object. -/
def freshId (n : Nat) : String := "generated-id-" ++ toString n

/-- Mutating Drive calls issued by the cloner, recorded as an effect trace. -/
inductive DriveOp where
  | create (name parent : String)
  | delete (fileId : String)
  | copy (srcId newName parent : String)
deriving Repr, DecidableEq

def DriveOp.isCreate : DriveOp → Bool
  | .create _ _ => true
  | _ => false

def DriveOp.isDelete : DriveOp → Bool
  | .delete _ => true
  | _ => false

def DriveOp.isCopy : DriveOp → Bool
  | .copy _ _ _ => true
  | _ => false

def countCreates (t : List DriveOp) : Nat := (t.filter DriveOp.isCreate).length
def countDeletes (t : List DriveOp) : Nat := (t.filter DriveOp.isDelete).length
def countCopies (t : List DriveOp) : Nat := (t.filter DriveOp.isCopy).length

/-- The `GoogleDocCloner` instance state that the queries depend on:
whether `drive_service` was initialised, and the fixed lab-337 parent
folder id (`base_folder_id`). -/
structure Cloner where
  hasDriveService : Bool
  baseFolderId : String
deriving Repr, DecidableEq

/-- The Drive query of `_get_or_create_folder_id_by_name`
(`clone_oppt_file.py:194`): `name = '{folder_name}' and mimeType =
'application/vnd.google-apps.folder' and '{base_folder_id}' in parents
and trashed = false`. -/
def folderQueryMatches (folderName baseFolderId : String) (f : DriveFile) : Bool :=
  f.name == folderName && f.isFolder && f.parents.contains baseFolderId && !f.trashed

/-- `files().list` restricted to the folder query above. -/
def listFolderQuery (s : DriveState) (folderName baseFolderId : String) : List DriveFile :=
  s.files.filter (folderQueryMatches folderName baseFolderId)

/-- `files().create` with folder metadata
(`clone_oppt_file.py:211-220`): a new, untrashed folder under
`baseFolderId` with a server-assigned fresh id. -/
def createFolder (s : DriveState) (folderName baseFolderId : String) :
    String × DriveState :=
  let fid := freshId s.nextId
  (fid,
   { files := s.files ++ [⟨fid, folderName, [baseFolderId], true, false⟩],
     nextId := s.nextId + 1 })

/-- `GoogleDocCloner._get_or_create_folder_id_by_name`
(`clone_oppt_file.py:178-228`).  With no `drive_service` it returns the
placeholder id; otherwise it queries for `(name, parent)` and returns
`files[0].id` when found, else creates the folder and returns the new
id.  API errors are excluded by the model (the claims assume none), so
the `None`-on-exception path does not arise. -/
def get_or_create_folder_id_by_name (c : Cloner) (s : DriveState)
    (folderName : String) : Option String × DriveState × List DriveOp :=
  if !c.hasDriveService then
    (some ("placeholder-folder-id-" ++ folderName), s, [])
  else
    match listFolderQuery s folderName c.baseFolderId with
    | f :: _ => (some f.id, s, [])
    | [] =>
      let r := createFolder s folderName c.baseFolderId
      (some r.1, r.2, [DriveOp.create folderName c.baseFolderId])

/-- The freshly created folder matches its own search query. -/
theorem folderQueryMatches_fresh (nm base : String) (n : Nat) :
    folderQueryMatches nm base ⟨freshId n, nm, [base], true, false⟩ = true := by
  simp [folderQueryMatches, List.contains]

/-- C1: the folder find-or-create routine is idempotent: run twice in
sequence from any Drive state, it returns the same (present) folder id
both times, performs at most one create in total, and the second call
issues no create at all and leaves the state unchanged. -/
theorem find_or_create_idempotent (c : Cloner) (s : DriveState) (nm : String) :
    (get_or_create_folder_id_by_name c s nm).1.isSome = true
  ∧ (get_or_create_folder_id_by_name c
       ((get_or_create_folder_id_by_name c s nm).2.1) nm).1
      = (get_or_create_folder_id_by_name c s nm).1
  ∧ countCreates (get_or_create_folder_id_by_name c s nm).2.2 ≤ 1
  ∧ (get_or_create_folder_id_by_name c
       ((get_or_create_folder_id_by_name c s nm).2.1) nm).2.2 = []
  ∧ (get_or_create_folder_id_by_name c
       ((get_or_create_folder_id_by_name c s nm).2.1) nm).2.1
      = (get_or_create_folder_id_by_name c s nm).2.1 := by
  by_cases hds : c.hasDriveService
  · cases hq : listFolderQuery s nm c.baseFolderId with
    | cons f rest =>
        simp [get_or_create_folder_id_by_name, hds, hq]
        simp [countCreates]
    | nil =>
        have hq2 : listFolderQuery (createFolder s nm c.baseFolderId).2 nm c.baseFolderId
            = [⟨freshId s.nextId, nm, [c.baseFolderId], true, false⟩] := by
          simp only [listFolderQuery, createFolder, List.filter_append]
          rw [listFolderQuery] at hq
          rw [hq]
          simp [folderQueryMatches_fresh]
        simp [get_or_create_folder_id_by_name, hds, hq, hq2]
        simp [countCreates, createFolder, DriveOp.isCreate]
  · simp [get_or_create_folder_id_by_name, hds]
    simp [countCreates]

/-- The Drive query of `_file_exists_in_folder` (`clone_oppt_file.py:129`):
`name = '{file_name}' and '{folder_id}' in parents and trashed = false`
(no mimeType restriction). -/
def fileQueryMatches (fileName folderId : String) (f : DriveFile) : Bool :=
  f.name == fileName && f.parents.contains folderId && !f.trashed

/-- `GoogleDocCloner._file_exists_in_folder` (`clone_oppt_file.py:113-147`):
returns the id of the first same-named file in the folder, `None` when no
`drive_service` or no match (API errors, which also yield `None` there,
are excluded by the model). -/
def file_exists_in_folder (c : Cloner) (s : DriveState)
    (folderId fileName : String) : Option String :=
  if !c.hasDriveService then none
  else ((s.files.filter (fileQueryMatches fileName folderId)).head?).map DriveFile.id

/-- `files().get(fileId, fields='name')` as used by `clone_doc_to_folder`
(`clone_oppt_file.py:250-254`): `none` models the API error raised for a
missing file (caught by the surrounding `except`, which returns `None`). -/
def getFileName (s : DriveState) (docId : String) : Option String :=
  (s.files.find? (fun f => f.id == docId)).map DriveFile.name

/-- `files().delete(fileId)` (`clone_oppt_file.py:263`). -/
def deleteFile (s : DriveState) (fid : String) : DriveState :=
  { s with files := s.files.filter (fun f => !(f.id == fid)) }

/-- `files().copy(fileId, body={'name': newName, 'parents': [parentId]})`
(`clone_oppt_file.py:270-276`): a fresh-id copy of the source placed in
the target folder; `none` models the API error for a missing source. -/
def copyFile (s : DriveState) (srcId newName parentId : String) :
    Option (String × DriveState) :=
  match s.files.find? (fun f => f.id == srcId) with
  | none => none
  | some src =>
    let fid := freshId s.nextId
    some (fid,
      { files := s.files ++ [⟨fid, newName, [parentId], src.isFolder, false⟩],
        nextId := s.nextId + 1 })

/-- `GoogleDocCloner.clone_doc_to_folder` (`clone_oppt_file.py:230-284`).
`new_title` falsy (absent or empty, Python truthiness) makes it fetch the
source's name; a same-named destination is deleted first when
`override=True`, returned as-is when `override=False`; otherwise the
source is copied into the target folder. -/
def clone_doc_to_folder (c : Cloner) (s : DriveState)
    (docId targetFolderId : String) (newTitle : Option String)
    (override : Bool) : Option String × DriveState × List DriveOp :=
  if !c.hasDriveService then
    (some ("placeholder-cloned-doc-id-" ++ docId), s, [])
  else
    let titleOpt : Option String :=
      match newTitle with
      | some t => if t == "" then getFileName s docId else some t
      | none => getFileName s docId
    match titleOpt with
    | none => (none, s, [])
    | some title =>
      match file_exists_in_folder c s targetFolderId title with
      | some existingId =>
        if override then
          let s1 := deleteFile s existingId
          match copyFile s1 docId title targetFolderId with
          | none => (none, s1, [DriveOp.delete existingId])
          | some r =>
            (some r.1, r.2,
             [DriveOp.delete existingId, DriveOp.copy docId title targetFolderId])
        else
          (some existingId, s, [])
      | none =>
        match copyFile s docId title targetFolderId with
        | none => (none, s, [])
        | some r => (some r.1, r.2, [DriveOp.copy docId title targetFolderId])

/-- C3: with `override=False` and a same-named file already in the
destination folder, `clone_doc_to_folder` returns the existing file's id,
leaves the Drive state unchanged, and issues no delete and no copy. -/
theorem clone_doc_no_override_frame (c : Cloner) (s : DriveState)
    (docId targetId title fid : String)
    (hds : c.hasDriveService = true)
    (ht : title ≠ "")
    (hex : file_exists_in_folder c s targetId title = some fid) :
    clone_doc_to_folder c s docId targetId (some title) false
      = (some fid, s, []) := by
  have ht' : (title == "") = false := by
    simpa using ht
  simp [clone_doc_to_folder, hds, ht', hex]

/-- Closed witness for `clone_doc_no_override_frame` at a concrete state:
one document `"report"` with id `"f1"` already lives in folder
`"target"`; the no-override clone returns `"f1"` and does nothing. -/
theorem clone_doc_no_override_frame_witness :
    clone_doc_to_folder ⟨true, "lab-337-base"⟩
        ⟨[⟨"src-doc", "report", ["elsewhere"], false, false⟩,
          ⟨"f1", "report", ["target"], false, false⟩], 5⟩
        "src-doc" "target" (some "report") false
      = (some "f1",
         ⟨[⟨"src-doc", "report", ["elsewhere"], false, false⟩,
           ⟨"f1", "report", ["target"], false, false⟩], 5⟩, []) :=
  clone_doc_no_override_frame ⟨true, "lab-337-base"⟩
    ⟨[⟨"src-doc", "report", ["elsewhere"], false, false⟩,
      ⟨"f1", "report", ["target"], false, false⟩], 5⟩
    "src-doc" "target" "report" "f1" rfl (by decide) rfl

/-- C4: with `override=True`, a same-named file `fid` already in the
destination folder, and the source document present after the delete,
`clone_doc_to_folder` issues exactly one delete (of `fid`, which indeed
bore the clone's name in the target folder) and exactly one copy, and
returns the id of the fresh copy, which sits in the target folder under
the same name. -/
theorem clone_doc_override_replaces (c : Cloner) (s : DriveState)
    (docId targetId title fid : String) (src : DriveFile)
    (hds : c.hasDriveService = true)
    (ht : title ≠ "")
    (hex : file_exists_in_folder c s targetId title = some fid)
    (hsrc : (deleteFile s fid).files.find? (fun f => f.id == docId) = some src) :
    (clone_doc_to_folder c s docId targetId (some title) true).2.2
        = [DriveOp.delete fid, DriveOp.copy docId title targetId]
  ∧ countDeletes (clone_doc_to_folder c s docId targetId (some title) true).2.2 = 1
  ∧ countCopies (clone_doc_to_folder c s docId targetId (some title) true).2.2 = 1
  ∧ (∃ old ∈ s.files, old.id = fid ∧ old.name = title
        ∧ targetId ∈ old.parents ∧ old.trashed = false)
  ∧ (clone_doc_to_folder c s docId targetId (some title) true).1
      = some (freshId s.nextId)
  ∧ (⟨freshId s.nextId, title, [targetId], src.isFolder, false⟩ : DriveFile)
      ∈ (clone_doc_to_folder c s docId targetId (some title) true).2.1.files := by
  have ht' : (title == "") = false := by
    simpa using ht
  have hcopy : copyFile (deleteFile s fid) docId title targetId
      = some (freshId (deleteFile s fid).nextId,
        { files := (deleteFile s fid).files
            ++ [⟨freshId (deleteFile s fid).nextId, title, [targetId], src.isFolder, false⟩],
          nextId := (deleteFile s fid).nextId + 1 }) := by
    simp [copyFile, hsrc]
  have hold : ∃ old ∈ s.files, old.id = fid ∧ old.name = title
      ∧ targetId ∈ old.parents ∧ old.trashed = false := by
    rw [file_exists_in_folder, if_neg (by simp [hds])] at hex
    cases hh : (s.files.filter (fileQueryMatches title targetId)).head? with
    | none => rw [hh] at hex; simp at hex
    | some g =>
        rw [hh] at hex
        simp only [Option.map] at hex
        have hmem : g ∈ s.files.filter (fileQueryMatches title targetId) :=
          List.mem_of_mem_head? hh
        have hg := List.mem_filter.mp hmem
        have hq := hg.2
        simp [fileQueryMatches] at hq
        exact ⟨g, hg.1, by simpa using hex, hq.1.1, hq.1.2, hq.2⟩
  have hrun : clone_doc_to_folder c s docId targetId (some title) true
      = (some (freshId s.nextId),
         { files := (deleteFile s fid).files
             ++ [⟨freshId s.nextId, title, [targetId], src.isFolder, false⟩],
           nextId := s.nextId + 1 },
         [DriveOp.delete fid, DriveOp.copy docId title targetId]) := by
    simp only [clone_doc_to_folder, hds, Bool.not_true, Bool.false_eq_true,
      if_false, ht', hex, hcopy]
    rw [if_pos trivial]
    rfl
  refine ⟨?_, ?_, ?_, hold, ?_, ?_⟩ <;> rw [hrun] <;>
    simp [countDeletes, countCopies, DriveOp.isDelete, DriveOp.isCopy]

/-- Closed witness for `clone_doc_override_replaces`: folder `"target"`
holds `"f1"` named `"report"`; cloning source `"src-doc"` with
`override=True` deletes `"f1"`, copies once, and returns the fresh id. -/
theorem clone_doc_override_replaces_witness :
    (clone_doc_to_folder ⟨true, "lab-337-base"⟩
        ⟨[⟨"src-doc", "report", ["elsewhere"], false, false⟩,
          ⟨"f1", "report", ["target"], false, false⟩], 5⟩
        "src-doc" "target" (some "report") true).2.2
        = [DriveOp.delete "f1", DriveOp.copy "src-doc" "report" "target"]
  ∧ countDeletes (clone_doc_to_folder ⟨true, "lab-337-base"⟩
        ⟨[⟨"src-doc", "report", ["elsewhere"], false, false⟩,
          ⟨"f1", "report", ["target"], false, false⟩], 5⟩
        "src-doc" "target" (some "report") true).2.2 = 1
  ∧ countCopies (clone_doc_to_folder ⟨true, "lab-337-base"⟩
        ⟨[⟨"src-doc", "report", ["elsewhere"], false, false⟩,
          ⟨"f1", "report", ["target"], false, false⟩], 5⟩
        "src-doc" "target" (some "report") true).2.2 = 1
  ∧ (∃ old ∈ (⟨[⟨"src-doc", "report", ["elsewhere"], false, false⟩,
          ⟨"f1", "report", ["target"], false, false⟩], 5⟩ : DriveState).files,
        old.id = "f1" ∧ old.name = "report"
        ∧ "target" ∈ old.parents ∧ old.trashed = false)
  ∧ (clone_doc_to_folder ⟨true, "lab-337-base"⟩
        ⟨[⟨"src-doc", "report", ["elsewhere"], false, false⟩,
          ⟨"f1", "report", ["target"], false, false⟩], 5⟩
        "src-doc" "target" (some "report") true).1 = some (freshId 5)
  ∧ (⟨freshId 5, "report", ["target"], false, false⟩ : DriveFile)
      ∈ (clone_doc_to_folder ⟨true, "lab-337-base"⟩
          ⟨[⟨"src-doc", "report", ["elsewhere"], false, false⟩,
            ⟨"f1", "report", ["target"], false, false⟩], 5⟩
          "src-doc" "target" (some "report") true).2.1.files :=
  clone_doc_override_replaces ⟨true, "lab-337-base"⟩
    ⟨[⟨"src-doc", "report", ["elsewhere"], false, false⟩,
      ⟨"f1", "report", ["target"], false, false⟩], 5⟩
    "src-doc" "target" "report" "f1"
    ⟨"src-doc", "report", ["elsewhere"], false, false⟩
    rfl (by decide) rfl rfl

/-! ## Site configuration reconciliation (`create_sites.py`) -/

/-- Python truthiness test used on strings coming out of `.get(...)`
(`if site_id:`, `if opportunity_id:`, `if not oppt_id: continue`):
absent or empty strings are falsy. -/
def truthyStr : Option String → Option String
  | some s => if s = "" then none else some s
  | none => none

/-- The attributes `GoogleDocCloner` actually defines
(`clone_oppt_file.py`).  `create_sites.py` resolves its calls on
`doc_cloner` against this set; `get_or_create_folder_id_by_name` (no
leading underscore) is not among them, so those calls raise
`AttributeError`. -/
def googleDocClonerAttrs : List String :=
  ["logger", "credentials_path", "drive_service", "base_folder_id",
   "_initialize_drive_api", "_extract_doc_id_from_url", "_get_file_name",
   "_file_exists_in_folder", "_extract_target_folder_from_base_url",
   "_get_or_create_folder_id_by_name", "clone_doc_to_folder",
   "clone_google_doc"]

def clonerHasAttr (nm : String) : Bool := googleDocClonerAttrs.contains nm

/-- The `hlxConfig.content.source` block of a site, the only part of the
site configuration the scripts read or write. -/
structure SourceConfig where
  sourceType : Option String
  url : Option String
deriving Repr, DecidableEq

structure SiteRecord where
  config : SourceConfig
deriving Repr, DecidableEq

/-- The SpaceCat backend state: site id → site record.  A GET for an
absent id is a non-200 response (the claims exclude other API errors). -/
structure Backend where
  sites : List (String × SiteRecord)
deriving Repr, DecidableEq

/-- Outbound HTTP writes/reads of `get_or_create_config`, as a trace. -/
inductive HttpOp where
  | getSite (siteId : String)
  | patchSite (siteId : String) (newUrl : String)
deriving Repr, DecidableEq

def HttpOp.isPatch : HttpOp → Bool
  | .patchSite _ _ => true
  | _ => false

/-- The result dict of `get_or_create_config`. -/
structure ConfigResult where
  success : Bool
  message : Option String
  error : Option String
deriving Repr, DecidableEq

/-- A character the folder-id regex class `[a-zA-Z0-9_-]` accepts. -/
def folderIdChar (ch : Char) : Bool :=
  ('a' ≤ ch && ch ≤ 'z') || ('A' ≤ ch && ch ≤ 'Z')
    || ('0' ≤ ch && ch ≤ '9') || ch == '_' || ch == '-'

/-- Helper for `extractFolderId`: scan left to right for an occurrence
of `"folders/"` followed by at least one id character (the regex engine
moves on to the next occurrence when the capture group cannot match). -/
def searchFolderId : List Char → Option String
  | [] => none
  | c :: rest =>
    if List.isPrefixOf ("folders/".toList) (c :: rest) then
      let ident := ((c :: rest).drop 8).takeWhile folderIdChar
      if ident.isEmpty then searchFolderId rest else some (String.mk ident)
    else searchFolderId rest

/-- `re.search(r'folders/([a-zA-Z0-9_-]+)', url)` as used at
`create_sites.py:139`. -/
def extractFolderId (url : String) : Option String :=
  searchFolderId url.toList

/-- The Drive folder URL `create_sites.py:132` builds for a folder id. -/
def driveUrlFor (folderId : String) : String :=
  "https://drive.google.com/drive/u/0/folders/" ++ folderId

/-- A successful `PATCH /sites/{id}` with the new `hlxConfig` body
(`create_sites.py:156-172` and `193-209`): it replaces the site's
`hlxConfig.content.source` with the drive.google source. -/
def patchConfig (b : Backend) (siteId newUrl : String) : Backend :=
  { sites := b.sites.map fun p =>
      if p.1 = siteId then (p.1, ⟨⟨some "drive.google", some newUrl⟩⟩) else p }

/-- The reconcile step of `get_or_create_config` after the expected
folder id is known (`create_sites.py:132-225`): correct config → no-op;
wrong folder → PATCH with the expected URL; no drive.google source →
PATCH with the expected URL.  PATCHes succeed in the no-API-error
model. -/
def reconcileConfig (b : Backend) (siteId : String) (cfg : SourceConfig)
    (expectedFolderId : String) : ConfigResult × Backend × List HttpOp :=
  let expectedUrl := driveUrlFor expectedFolderId
  if cfg.sourceType == some "drive.google" then
    let currentUrl := cfg.url.getD ""
    if extractFolderId currentUrl == some expectedFolderId then
      ({ success := true,
         message := some "Google Drive configuration already exists and is correct",
         error := none }, b, [])
    else
      ({ success := true,
         message := some "Successfully updated Google Drive configuration to the correct folder",
         error := none },
       patchConfig b siteId expectedUrl, [HttpOp.patchSite siteId expectedUrl])
  else
    ({ success := true,
       message := some "Successfully added Google Drive configuration",
       error := none },
     patchConfig b siteId expectedUrl, [HttpOp.patchSite siteId expectedUrl])

/-- The error string produced when the `AttributeError` raised at
`create_sites.py:124` is caught by the handler at line 227. -/
def attributeErrorResult : ConfigResult :=
  { success := false, message := none,
    error := some "Error updating site configuration: 'GoogleDocCloner' object has no attribute 'get_or_create_folder_id_by_name'" }

/-- The intended body of `get_or_create_config` once the expected folder
id has been obtained from the cloner (`create_sites.py:122-225`). -/
def get_or_create_config_body (b : Backend) (c : Cloner) (ds : DriveState)
    (siteId siteNum : String) (cfg : SourceConfig) :
    ConfigResult × Backend × DriveState × List HttpOp :=
  let fr := get_or_create_folder_id_by_name c ds siteNum
  match fr.1 with
  | none =>
    ({ success := false, message := none,
       error := some ("Could not find or create Google Drive folder for site number: " ++ siteNum) },
     b, fr.2.1, [HttpOp.getSite siteId])
  | some fid =>
    let r := reconcileConfig b siteId cfg fid
    (r.1, r.2.1, fr.2.1, HttpOp.getSite siteId :: r.2.2)

/-- `get_or_create_config` (`create_sites.py:84-232`).  It GETs the
site; on success it calls
`doc_cloner.get_or_create_folder_id_by_name(site_num)` — an attribute
`GoogleDocCloner` does not define (only the underscored
`_get_or_create_folder_id_by_name` exists), so the call raises
`AttributeError`, which the `except` at line 227 converts into an error
result, before any reconcile logic runs. -/
def get_or_create_config (b : Backend) (c : Cloner) (ds : DriveState)
    (siteId siteNum : String) : ConfigResult × Backend × DriveState × List HttpOp :=
  match b.sites.lookup siteId with
  | none =>
    ({ success := false, message := none,
       error := some "Failed to get site configuration. Status code: 404" },
     b, ds, [HttpOp.getSite siteId])
  | some site =>
    if clonerHasAttr "get_or_create_folder_id_by_name" then
      get_or_create_config_body b c ds siteId siteNum site.config
    else
      (attributeErrorResult, b, ds, [HttpOp.getSite siteId])

/-! ## Google Drive folder synchronisation (`sync_gdrive`) -/

/-- Python's `f"{num:03d}"`: decimal digits left-padded with zeros to
width 3. -/
def formatNum3 (n : Nat) : String :=
  let s := toString n
  if s.length ≥ 3 then s
  else String.mk (List.replicate (3 - s.length) '0') ++ s

/-- One entry of the `results` dict of `sync_gdrive`
(`create_sites.py:283-342`); the claims below model the
`files_to_sync=None` run, in which the per-file sub-loop (which would
add a `files` key to successful entries) never executes. -/
structure FolderResult where
  status : String
  folder_id : Option String
  url : Option String
  error : Option String
deriving Repr, DecidableEq

/-- The per-folder call `doc_cloner.get_or_create_folder_id_by_name(...)`
as the loop body sees it: an exception (`.error`), or a folder id /
`None` with the updated Drive state and effect trace. -/
def GStep := DriveState → String → Except String (Option String × DriveState × List DriveOp)

/-- The body of the `try`/`except` per folder in `sync_gdrive`
(`create_sites.py:271-342`): SUCCESS with id and URL, FAILED when the
call returns `None`, ERROR with the message when it raises. -/
def sync_gdrive_item (step : GStep) (ds : DriveState) (n : Nat) :
    FolderResult × DriveState × Bool :=
  match step ds (formatNum3 n) with
  | .error msg =>
    ({ status := "ERROR", folder_id := none, url := none, error := some msg },
     ds, false)
  | .ok (some fid, ds2, _) =>
    ({ status := "SUCCESS", folder_id := some fid,
       url := some (driveUrlFor fid), error := none }, ds2, true)
  | .ok (none, ds2, _) =>
    ({ status := "FAILED", folder_id := none, url := none,
       error := some "Could not find or create folder" }, ds2, false)

/-- The `for num in range(start_folder, end_folder)` loop of
`sync_gdrive`, by recursion on the number of remaining folders:
returns (success_count, failure_count, results, final Drive state). -/
def sync_gdrive_go (step : GStep) (ds : DriveState) (start : Nat) :
    Nat → Nat × Nat × List (String × FolderResult) × DriveState
  | 0 => (0, 0, [], ds)
  | k + 1 =>
    let it := sync_gdrive_item step ds start
    let rest := sync_gdrive_go step it.2.1 (start + 1) k
    (rest.1 + (if it.2.2 then 1 else 0),
     rest.2.1 + (if it.2.2 then 0 else 1),
     (formatNum3 start, it.1) :: rest.2.2.1,
     rest.2.2.2)

/-- `sync_gdrive(start_folder, end_folder)` (`create_sites.py:234-370`),
parameterised by the per-folder step. -/
def sync_gdrive_loop (step : GStep) (ds : DriveState) (a b : Nat) :
    Nat × Nat × List (String × FolderResult) × DriveState :=
  sync_gdrive_go step ds a (b - a)

/-- The actual per-folder step of `sync_gdrive` and
`get_or_create_config`: attribute resolution of
`get_or_create_folder_id_by_name` on the `GoogleDocCloner` instance,
which raises `AttributeError` because only the underscored name is
defined (`clone_oppt_file.py:178`). -/
def doc_cloner_folder_step (c : Cloner) : GStep := fun ds nm =>
  if clonerHasAttr "get_or_create_folder_id_by_name" then
    .ok (get_or_create_folder_id_by_name c ds nm)
  else
    .error "'GoogleDocCloner' object has no attribute 'get_or_create_folder_id_by_name'"

/-- `sync_gdrive` as shipped: the loop run with the failing attribute
lookup. -/
def sync_gdrive (c : Cloner) (ds : DriveState) (a b : Nat) :
    Nat × Nat × List (String × FolderResult) × DriveState :=
  sync_gdrive_loop (doc_cloner_folder_step c) ds a b

/-! ## Opportunity synchronisation (`sync_opportunities`,
`_delete_opportunities`, `clone_oppt.py`) -/

/-- Oracle for one run of `_delete_opportunities`
(`create_sites.py:555-635`): the status of the list call, the
opportunity records it returned (`none` models a record without an `id`
key), and the outcome of each DELETE (`.error` = exception, `.ok` =
status code). -/
structure DeleteEnv where
  listStatus : Nat
  opportunities : List (Option String)
  deleteStatus : String → Except String Nat

/-- Ids the deletion loop actually attempts: records whose `id` is
present and truthy (`if not oppt_id: continue`). -/
def cleanIds (l : List (Option String)) : List String :=
  l.filterMap truthyStr

/-- `200 <= status_code < 300`, the success test of the deletion loop
(`create_sites.py:607`). -/
def is2xx (code : Nat) : Bool := decide (200 ≤ code) && decide (code < 300)

/-- `(deleted, failed)` id lists accumulated by the deletion loop
(`create_sites.py:596-624`), in request order. -/
def deleteResults (st : String → Except String Nat) :
    List String → List String × List String
  | [] => ([], [])
  | oid :: rest =>
    let r := deleteResults st rest
    match st oid with
    | .ok code =>
      if is2xx code then (oid :: r.1, r.2) else (r.1, oid :: r.2)
    | .error _ => (r.1, oid :: r.2)

/-- The result dict of `_delete_opportunities`. -/
structure DeleteResult where
  success : Bool
  count : Nat
  deletedIds : List String
  failedIds : List String
  error : Option String
deriving Repr, DecidableEq

/-- `_delete_opportunities` (`create_sites.py:555-635`): non-200 list →
failure; otherwise delete each opportunity, count successes, and mark
the whole result failed (with an error string) when any deletion
failed. -/
def delete_opportunities (env : DeleteEnv) : DeleteResult :=
  if env.listStatus ≠ 200 then
    { success := false, count := 0, deletedIds := [], failedIds := [],
      error := some ("Failed to list opportunities: Status code "
        ++ toString env.listStatus) }
  else
    let r := deleteResults env.deleteStatus (cleanIds env.opportunities)
    if r.2.isEmpty then
      { success := true, count := r.1.length, deletedIds := r.1,
        failedIds := [], error := none }
    else
      { success := false, count := r.1.length, deletedIds := r.1,
        failedIds := r.2,
        error := some ("Failed to delete " ++ toString r.2.length
          ++ " opportunities") }

/-- A delete outcome the loop records as failed: an exception or a
non-2xx status. -/
def isBadDelete : Except String Nat → Bool
  | .ok code => Bool.not (is2xx code)
  | .error _ => true

/-- One `opportunities[...]` entry of a site's results in
`sync_opportunities` (success flag, error string on failure). -/
structure OpptEntry where
  success : Bool
  error : Option String
deriving Repr, DecidableEq

/-- Outcome of one `backoffice.clone_opportunity(...)` call as its inner
`try`/`except` sees it (`create_sites.py:465-504`). -/
def opptEntryOf : Except String Unit → OpptEntry
  | .ok _ => { success := true, error := none }
  | .error e => { success := false, error := some e }

def lowCtrFilePath : String := "./oppt/opp--high-organic-low-ctr--3_7_2025.json"

/-- Oracle for one site iteration of `sync_opportunities`: the by-base-url
lookup (exception, or status plus the `id` field of the body), the
deletion oracle, and the two clone outcomes. -/
structure SiteEnv where
  lookupOutcome : Except String (Nat × Option String)
  deleteEnv : DeleteEnv
  brokenLinksOutcome : Except String Unit
  lowCtrFileExists : Bool
  lowCtrOutcome : Except String Unit

/-- The `site_results` dict built for each site
(`create_sites.py:434-532`). -/
structure SiteResults where
  site_num : String
  base_url : String
  site_id : Option String
  deleted : Option DeleteResult
  opportunities : List (String × OpptEntry)
  error : Option String
deriving Repr, DecidableEq

def siteBaseUrl (num : String) : String :=
  "https://main--wknd-summit2025--adobe.aem.live/lab-337/" ++ num ++ "/"

/-- The `low_ctr` entry: clone outcome when the fixture file exists,
otherwise the recorded file-not-found failure
(`create_sites.py:485-510`). -/
def lowCtrEntry (env : SiteEnv) : OpptEntry :=
  if env.lowCtrFileExists then opptEntryOf env.lowCtrOutcome
  else { success := false, error := some ("File not found: " ++ lowCtrFilePath) }

/-- One site iteration of `sync_opportunities`
(`create_sites.py:425-532`): look the site up; on success delete its
opportunities (recording the result whatever it is) and then clone both
opportunities; the site counts as a success when any clone succeeded.
Exceptions and error statuses are recorded in `error` and count as
failures.  Returns the recorded `site_results` and the success flag. -/
def process_site (env : SiteEnv) (n : Nat) : SiteResults × Bool :=
  let num := formatNum3 n
  let base := siteBaseUrl num
  match env.lookupOutcome with
  | .error e =>
    ({ site_num := num, base_url := base, site_id := none, deleted := none,
       opportunities := [], error := some e }, false)
  | .ok (status, idOpt) =>
    if status = 200 then
      match truthyStr idOpt with
      | some sid =>
        let delRes := delete_opportunities env.deleteEnv
        let bl := opptEntryOf env.brokenLinksOutcome
        let lc := lowCtrEntry env
        ({ site_num := num, base_url := base, site_id := some sid,
           deleted := some delRes,
           opportunities := [("broken_links", bl), ("low_ctr", lc)],
           error := none },
         bl.success || lc.success)
      | none =>
        ({ site_num := num, base_url := base, site_id := none, deleted := none,
           opportunities := [],
           error := some "Failed to get site ID from response" }, false)
    else
      ({ site_num := num, base_url := base, site_id := none, deleted := none,
         opportunities := [],
         error := some ("Site not found or error occurred: " ++ toString status) },
       false)

/-- The `for num in range(start_site, end_site)` loop of
`sync_opportunities`: (success_count, failure_count, sites). -/
def sync_oppts_go (envs : Nat → SiteEnv) (start : Nat) :
    Nat → Nat × Nat × List (String × SiteResults)
  | 0 => (0, 0, [])
  | k + 1 =>
    let it := process_site (envs start) start
    let rest := sync_oppts_go envs (start + 1) k
    (rest.1 + (if it.2 then 1 else 0),
     rest.2.1 + (if it.2 then 0 else 1),
     (formatNum3 start, it.1) :: rest.2.2)

def sync_oppts_loop (envs : Nat → SiteEnv) (a b : Nat) :
    Nat × Nat × List (String × SiteResults) :=
  sync_oppts_go envs a (b - a)

/-! ## Startup checks (`create_sites.py:12-35`, `clone_oppt_file.py:21-50`) -/

/-- The facts the startup of `create_sites.py` depends on: whether
`ASO_TOKEN` is set, whether `credentials.json` exists and parses as
valid service-account credentials, and whether the
`from clone_oppt_file import GoogleDocCloner` import succeeds. -/
structure StartupEnv where
  asoTokenSet : Bool
  credentialsFileExists : Bool
  credentialsValid : Bool
  clonerImportOk : Bool
deriving Repr, DecidableEq

inductive StartupOutcome where
  | exit (code : Nat)
  | proceed (hasDriveService : Bool)
deriving Repr, DecidableEq

/-- `GoogleDocCloner._initialize_drive_api` (`clone_oppt_file.py:39-50`):
a missing credentials file only logs a warning and leaves
`drive_service = None` (`.ok false`); invalid credentials raise
(`.error`). -/
def initialize_drive_api (env : StartupEnv) : Except String Bool :=
  if env.credentialsFileExists then
    if env.credentialsValid then .ok true
    else .error "invalid service account credentials"
  else .ok false

/-- `GoogleDocCloner.__init__` (`clone_oppt_file.py:21-37`): it wraps
`_initialize_drive_api` in `try`/`except` and only logs on failure, so
construction never raises; the result is whether `drive_service` ended
up initialised. -/
def googleDocClonerInit (env : StartupEnv) : Bool :=
  match initialize_drive_api env with
  | .ok ds => ds
  | .error _ => false

/-- Module startup of `create_sites.py` (lines 12-35): exit(1) when
`ASO_TOKEN` is unset; exit(1) when the `GoogleDocCloner` import (or an
exception escaping construction) fails; otherwise proceed with whatever
Drive service state the cloner ended up with. -/
def create_sites_startup (env : StartupEnv) : StartupOutcome :=
  if !env.asoTokenSet then .exit 1
  else if !env.clonerImportOk then .exit 1
  else .proceed (googleDocClonerInit env)

/-- C7 counterexample: with `ASO_TOKEN` set and the import fine, a
missing credentials file — and likewise an invalid one — does NOT abort
startup: `GoogleDocCloner.__init__` swallows the failure and the script
proceeds with no Drive service (placeholder mode). -/
theorem startup_missing_credentials_no_abort :
    create_sites_startup ⟨true, false, true, true⟩ = .proceed false
  ∧ create_sites_startup ⟨true, false, true, true⟩ ≠ .exit 1
  ∧ create_sites_startup ⟨true, true, false, true⟩ = .proceed false
  ∧ create_sites_startup ⟨true, true, false, true⟩ ≠ .exit 1 := by
  refine ⟨rfl, ?_, rfl, ?_⟩ <;> decide

/-- C7 amended: if `ASO_TOKEN` is not set the script exits at startup
before processing anything; but with the token set and the import fine,
a missing or invalid Google Drive credentials file does not abort — the
script proceeds with `drive_service = None` (placeholder mode). -/
theorem startup_amended_behavior (env : StartupEnv)
    (htok : env.asoTokenSet = true) (himp : env.clonerImportOk = true)
    (hcred : env.credentialsFileExists = false ∨ env.credentialsValid = false) :
    create_sites_startup env = .proceed false
  ∧ ∀ env2 : StartupEnv, env2.asoTokenSet = false →
      create_sites_startup env2 = .exit 1 := by
  constructor
  · have hmain : googleDocClonerInit env = false := by
      rcases hcred with h | h
      · simp [googleDocClonerInit, initialize_drive_api, h]
      · cases hex : env.credentialsFileExists <;>
          simp [googleDocClonerInit, initialize_drive_api, hex, h]
    simp [create_sites_startup, htok, himp, hmain]
  · intro env2 h
    simp [create_sites_startup, h]

/-- Closed witness for `startup_amended_behavior`: token set, import
fine, credentials file missing. -/
theorem startup_amended_behavior_witness :
    create_sites_startup ⟨true, false, true, true⟩ = .proceed false
  ∧ ∀ env2 : StartupEnv, env2.asoTokenSet = false →
      create_sites_startup env2 = .exit 1 :=
  startup_amended_behavior ⟨true, false, true, true⟩ rfl rfl (Or.inl rfl)

/-! ## C2: the reconcile routine as shipped never converges -/

/-- A concrete backend: one site `"site-1"` with no drive.google
source configured. -/
def backendW : Backend := ⟨[("site-1", ⟨⟨none, none⟩⟩)]⟩

def clonerW : Cloner := ⟨true, "lab-337-base"⟩

def driveW : DriveState := ⟨[], 0⟩

/-- C2 (code bug): evaluated at the concrete input (site `"site-1"` with
no configuration, site number `"007"`), the shipped
`get_or_create_config` reports failure, leaves the backend configuration
untouched, and issues no PATCH — the `AttributeError` from
`doc_cloner.get_or_create_folder_id_by_name` pre-empts the reconcile
logic.  By contrast the reconcile continuation itself
(`get_or_create_config_body`, reachable only if the attribute existed)
would converge: one call sets the config to the canonical folder's URL,
and a second call on the patched state issues no PATCH and reports the
configuration already correct. -/
theorem get_or_create_config_never_converges :
    (get_or_create_config backendW clonerW driveW "site-1" "007").1
        = attributeErrorResult
  ∧ (get_or_create_config backendW clonerW driveW "site-1" "007").2.1 = backendW
  ∧ ((get_or_create_config backendW clonerW driveW "site-1" "007").2.2.2.filter
        HttpOp.isPatch) = []
  ∧ (get_or_create_config_body backendW clonerW driveW "site-1" "007"
        ⟨none, none⟩).2.1.sites.lookup "site-1"
      = some ⟨⟨some "drive.google", some (driveUrlFor (freshId 0))⟩⟩
  ∧ ((get_or_create_config_body
        (get_or_create_config_body backendW clonerW driveW "site-1" "007"
          ⟨none, none⟩).2.1
        clonerW
        (get_or_create_config_body backendW clonerW driveW "site-1" "007"
          ⟨none, none⟩).2.2.1
        "site-1" "007"
        ⟨some "drive.google", some (driveUrlFor (freshId 0))⟩).2.2.2.filter
          HttpOp.isPatch) = []
  ∧ (get_or_create_config_body
        (get_or_create_config_body backendW clonerW driveW "site-1" "007"
          ⟨none, none⟩).2.1
        clonerW
        (get_or_create_config_body backendW clonerW driveW "site-1" "007"
          ⟨none, none⟩).2.2.1
        "site-1" "007"
        ⟨some "drive.google", some (driveUrlFor (freshId 0))⟩).1.message
      = some "Google Drive configuration already exists and is correct" := by
  refine ⟨rfl, rfl, rfl, rfl, ?_, ?_⟩ <;> rfl

/-! ## Loop lemmas -/

/-- Every folder number in the processed range gets an entry in the
`sync_gdrive` results, whatever the per-folder step does. -/
theorem sync_gdrive_go_mem (step : GStep) (ds : DriveState) (a k n : Nat)
    (h1 : a ≤ n) (h2 : n < a + k) :
    ∃ r, (formatNum3 n, r) ∈ (sync_gdrive_go step ds a k).2.2.1 := by
  induction k generalizing a ds with
  | zero => omega
  | succ k ih =>
    by_cases hna : n = a
    · subst hna
      exact ⟨(sync_gdrive_item step ds n).1, List.mem_cons_self _ _⟩
    · have h1' : a + 1 ≤ n := by omega
      have h2' : n < (a + 1) + k := by omega
      obtain ⟨r, hr⟩ := ih (sync_gdrive_item step ds a).2.1 (a + 1) h1' h2'
      exact ⟨r, List.mem_cons_of_mem _ hr⟩

/-- Every `ERROR` entry in the `sync_gdrive` results carries an error
message. -/
theorem sync_gdrive_go_error_recorded (step : GStep) (ds : DriveState)
    (a k : Nat) :
    ∀ p ∈ (sync_gdrive_go step ds a k).2.2.1,
      p.2.status = "ERROR" → p.2.error.isSome = true := by
  induction k generalizing a ds with
  | zero => intro p hp; simp [sync_gdrive_go] at hp
  | succ k ih =>
    intro p hp herr
    rcases List.mem_cons.mp hp with h | h
    · subst h
      cases hstep : step ds (formatNum3 a) with
      | error msg => simp [sync_gdrive_item, hstep]
      | ok v =>
        cases hv : v.1 with
        | some fid =>
          exfalso
          obtain ⟨v1, v2⟩ := v
          simp at hv
          subst hv
          simp [sync_gdrive_item, hstep] at herr
        | none =>
          obtain ⟨v1, v2⟩ := v
          simp at hv
          subst hv
          simp [sync_gdrive_item, hstep]
    · exact ih (sync_gdrive_item step ds a).2.1 (a + 1) p h herr

/-- Every processed folder is tallied exactly once: the success and
failure counts add up to the size of the range. -/
theorem sync_gdrive_go_counts (step : GStep) (ds : DriveState) (a k : Nat) :
    (sync_gdrive_go step ds a k).1 + (sync_gdrive_go step ds a k).2.1 = k := by
  induction k generalizing a ds with
  | zero => rfl
  | succ k ih =>
    have := ih (sync_gdrive_item step ds a).2.1 (a + 1)
    simp only [sync_gdrive_go]
    cases h : (sync_gdrive_item step ds a).2.2 <;> simp <;> omega

/-- The failure count of `sync_gdrive` equals the number of non-SUCCESS
entries: items whose processing raised or failed are exactly the ones
counted as failures. -/
theorem sync_gdrive_go_failure_count (step : GStep) (ds : DriveState)
    (a k : Nat) :
    (sync_gdrive_go step ds a k).2.1
      = ((sync_gdrive_go step ds a k).2.2.1.filter
          (fun p => !(p.2.status == "SUCCESS"))).length := by
  induction k generalizing a ds with
  | zero => rfl
  | succ k ih =>
    simp only [sync_gdrive_go]
    cases hstep : step ds (formatNum3 a) with
    | error msg =>
      simp [sync_gdrive_item, hstep]
      exact ih ds (a + 1)
    | ok v =>
      obtain ⟨v1, v2, v3⟩ := v
      cases v1 with
      | some fid =>
        simp [sync_gdrive_item, hstep]
        exact ih v2 (a + 1)
      | none =>
        simp [sync_gdrive_item, hstep]
        exact ih v2 (a + 1)

/-- Every site number in the processed range gets its exact
`site_results` entry in the `sync_opportunities` results. -/
theorem sync_oppts_go_mem (envs : Nat → SiteEnv) (a k n : Nat)
    (h1 : a ≤ n) (h2 : n < a + k) :
    (formatNum3 n, (process_site (envs n) n).1)
      ∈ (sync_oppts_go envs a k).2.2 := by
  induction k generalizing a with
  | zero => omega
  | succ k ih =>
    by_cases hna : n = a
    · subst hna
      exact List.mem_cons_self _ _
    · have h1' : a + 1 ≤ n := by omega
      have h2' : n < (a + 1) + k := by omega
      exact List.mem_cons_of_mem _ (ih (a + 1) h1' h2')

/-- Every processed site is tallied exactly once in the opportunity-sync
summary counts. -/
theorem sync_oppts_go_counts (envs : Nat → SiteEnv) (a k : Nat) :
    (sync_oppts_go envs a k).1 + (sync_oppts_go envs a k).2.1 = k := by
  induction k generalizing a with
  | zero => rfl
  | succ k ih =>
    have := ih (a + 1)
    simp only [sync_oppts_go]
    cases h : (process_site (envs a) a).2 <;> simp <;> omega

/-- An exception during the by-base-url lookup of a site is recorded in
that site's `error` field. -/
theorem process_site_error_recorded (env : SiteEnv) (n : Nat) (e : String)
    (h : env.lookupOutcome = .error e) :
    (process_site env n).1.error = some e := by
  simp [process_site, h]

/-- C6: per-item error isolation in both loops.  In `sync_gdrive`, every
folder number of the range appears in the results, `ERROR` entries (the
caught exceptions) carry an error message, the failure count counts
exactly the non-SUCCESS entries, and success+failure tallies equal the
range size; in `sync_opportunities`, every site number of the range
appears in the results with its own `site_results`, a lookup exception
is recorded in that structure's `error` field, and the summary counts
tally every site.  No per-item exception removes later items from the
results. -/
theorem per_item_error_isolation (step : GStep) (ds : DriveState)
    (envs : Nat → SiteEnv) (a b n : Nat) (e : String)
    (h1 : a ≤ n) (h2 : n < b) :
    (∃ r, (formatNum3 n, r) ∈ (sync_gdrive_loop step ds a b).2.2.1)
  ∧ (∀ p ∈ (sync_gdrive_loop step ds a b).2.2.1,
      p.2.status = "ERROR" → p.2.error.isSome = true)
  ∧ (sync_gdrive_loop step ds a b).1 + (sync_gdrive_loop step ds a b).2.1 = b - a
  ∧ (sync_gdrive_loop step ds a b).2.1
      = ((sync_gdrive_loop step ds a b).2.2.1.filter
          (fun p => !(p.2.status == "SUCCESS"))).length
  ∧ (formatNum3 n, (process_site (envs n) n).1) ∈ (sync_oppts_loop envs a b).2.2
  ∧ ((envs n).lookupOutcome = .error e → (process_site (envs n) n).1.error = some e)
  ∧ (sync_oppts_loop envs a b).1 + (sync_oppts_loop envs a b).2.1 = b - a := by
  have hrange : n < a + (b - a) := by omega
  exact ⟨sync_gdrive_go_mem step ds a (b - a) n h1 hrange,
    sync_gdrive_go_error_recorded step ds a (b - a),
    sync_gdrive_go_counts step ds a (b - a),
    sync_gdrive_go_failure_count step ds a (b - a),
    sync_oppts_go_mem envs a (b - a) n h1 hrange,
    process_site_error_recorded (envs n) n e,
    sync_oppts_go_counts envs a (b - a)⟩

/-- A per-item step that always raises, and a site environment whose
lookup always raises: concrete inputs for the witness below. -/
def raisingStep : GStep := fun _ _ => .error "boom"

def raisingSiteEnv : SiteEnv :=
  { lookupOutcome := .error "boom",
    deleteEnv := ⟨200, [], fun _ => .ok 204⟩,
    brokenLinksOutcome := .ok (),
    lowCtrFileExists := false,
    lowCtrOutcome := .ok () }

/-- Closed witness for `per_item_error_isolation`: range 0..2, item 1,
with every per-item call raising `"boom"`. -/
theorem per_item_error_isolation_witness :
    (∃ r, (formatNum3 1, r) ∈ (sync_gdrive_loop raisingStep driveW 0 2).2.2.1)
  ∧ (∀ p ∈ (sync_gdrive_loop raisingStep driveW 0 2).2.2.1,
      p.2.status = "ERROR" → p.2.error.isSome = true)
  ∧ (sync_gdrive_loop raisingStep driveW 0 2).1
      + (sync_gdrive_loop raisingStep driveW 0 2).2.1 = 2 - 0
  ∧ (sync_gdrive_loop raisingStep driveW 0 2).2.1
      = ((sync_gdrive_loop raisingStep driveW 0 2).2.2.1.filter
          (fun p => !(p.2.status == "SUCCESS"))).length
  ∧ (formatNum3 1, (process_site ((fun _ => raisingSiteEnv) 1) 1).1)
      ∈ (sync_oppts_loop (fun _ => raisingSiteEnv) 0 2).2.2
  ∧ (((fun _ => raisingSiteEnv) 1 : SiteEnv).lookupOutcome = .error "boom" →
      (process_site ((fun _ => raisingSiteEnv) 1) 1).1.error = some "boom")
  ∧ (sync_oppts_loop (fun _ => raisingSiteEnv) 0 2).1
      + (sync_oppts_loop (fun _ => raisingSiteEnv) 0 2).2.1 = 2 - 0 :=
  per_item_error_isolation raisingStep driveW (fun _ => raisingSiteEnv) 0 2 1
    "boom" (by omega) (by omega)

/-! ## C5: the missing-attribute bug observed by both callers -/

/-- The `sync_gdrive` result entry every folder receives under the
`AttributeError`. -/
def attrErrorFolderResult : FolderResult :=
  { status := "ERROR", folder_id := none, url := none,
    error := some "'GoogleDocCloner' object has no attribute 'get_or_create_folder_id_by_name'" }

theorem clonerHasAttr_get_or_create :
    clonerHasAttr "get_or_create_folder_id_by_name" = false := by decide

/-- Under the failing attribute lookup the per-folder item of
`sync_gdrive` records an ERROR and leaves the Drive state unchanged. -/
theorem sync_gdrive_item_attr_error (c : Cloner) (ds : DriveState) (n : Nat) :
    sync_gdrive_item (doc_cloner_folder_step c) ds n
      = (attrErrorFolderResult, ds, false) := by
  simp [sync_gdrive_item, doc_cloner_folder_step, clonerHasAttr_get_or_create,
    attrErrorFolderResult]

/-- Every folder in the range is recorded with the `AttributeError`
ERROR entry. -/
theorem sync_gdrive_attr_error_all (c : Cloner) (ds : DriveState) (a k n : Nat)
    (h1 : a ≤ n) (h2 : n < a + k) :
    (formatNum3 n, attrErrorFolderResult)
      ∈ (sync_gdrive_go (doc_cloner_folder_step c) ds a k).2.2.1 := by
  induction k generalizing a with
  | zero => omega
  | succ k ih =>
    have hgo : (sync_gdrive_go (doc_cloner_folder_step c) ds a (k + 1)).2.2.1
        = (formatNum3 a, attrErrorFolderResult)
          :: (sync_gdrive_go (doc_cloner_folder_step c) ds (a + 1) k).2.2.1 := by
      simp [sync_gdrive_go, sync_gdrive_item_attr_error c ds a]
    rw [hgo]
    by_cases hna : n = a
    · subst hna
      exact List.mem_cons_self _ _
    · have h1' : a + 1 ≤ n := by omega
      have h2' : n < (a + 1) + k := by omega
      exact List.mem_cons_of_mem _ (ih (a + 1) h1' h2')

/-- C5: `get_or_create_config` always returns `success = False` — when
the site GET succeeds, specifically the converted `AttributeError`
result, because `GoogleDocCloner` defines only
`_get_or_create_folder_id_by_name` — and every folder processed by
`sync_gdrive` is recorded with status `ERROR` for the same reason. -/
theorem config_and_sync_hit_attribute_error (b : Backend) (c : Cloner)
    (ds : DriveState) (siteId siteNum : String) (site : SiteRecord)
    (a bnd n : Nat) (h1 : a ≤ n) (h2 : n < bnd) :
    (get_or_create_config b c ds siteId siteNum).1.success = false
  ∧ (b.sites.lookup siteId = some site →
      (get_or_create_config b c ds siteId siteNum).1 = attributeErrorResult)
  ∧ (formatNum3 n, attrErrorFolderResult) ∈ (sync_gdrive c ds a bnd).2.2.1 := by
  have hrange : n < a + (bnd - a) := by omega
  refine ⟨?_, ?_, sync_gdrive_attr_error_all c ds a (bnd - a) n h1 hrange⟩
  · cases hlk : b.sites.lookup siteId with
    | none => simp [get_or_create_config, hlk]
    | some site' =>
      simp [get_or_create_config, hlk, clonerHasAttr_get_or_create,
        attributeErrorResult]
  · intro hlk
    simp [get_or_create_config, hlk, clonerHasAttr_get_or_create]

/-- Closed witness for `config_and_sync_hit_attribute_error` at the
concrete backend `backendW`, site `"site-1"`, folder range 0..2,
folder 1. -/
theorem config_and_sync_hit_attribute_error_witness :
    (get_or_create_config backendW clonerW driveW "site-1" "007").1.success = false
  ∧ (backendW.sites.lookup "site-1" = some ⟨⟨none, none⟩⟩ →
      (get_or_create_config backendW clonerW driveW "site-1" "007").1
        = attributeErrorResult)
  ∧ (formatNum3 1, attrErrorFolderResult)
      ∈ (sync_gdrive clonerW driveW 0 2).2.2.1 :=
  config_and_sync_hit_attribute_error backendW clonerW driveW "site-1" "007"
    ⟨⟨none, none⟩⟩ 0 2 1 (by omega) (by omega)

/-! ## C10: deletion failure does not gate opportunity creation -/

/-- An attempted deletion with a bad outcome lands in the `failed`
list. -/
theorem deleteResults_failed_mem (st : String → Except String Nat)
    (l : List String) (oid : String) (hm : oid ∈ l)
    (hb : isBadDelete (st oid) = true) :
    oid ∈ (deleteResults st l).2 := by
  induction l with
  | nil => cases hm
  | cons x rest ih =>
    rcases List.mem_cons.mp hm with h | h
    · subst h
      cases hst : st oid with
      | error e => simp [deleteResults, hst]
      | ok code =>
        have hb2 : Bool.not (is2xx code) = true := by rw [hst] at hb; exact hb
        have hc : is2xx code = false := by simpa using hb2
        simp [deleteResults, hst, hc]
    · have hr := ih h
      cases hst : st x with
      | error e =>
        simp only [deleteResults, hst]
        exact List.mem_cons_of_mem _ hr
      | ok code =>
        by_cases hc : is2xx code = true
        · simpa [deleteResults, hst, hc] using hr
        · simp only [deleteResults, hst, Bool.not_eq_true] at hc ⊢
          rw [hc]
          exact List.mem_cons_of_mem _ hr

/-- C10: in `sync_opportunities`, with the site lookup succeeding and
some opportunity deletion failing (non-2xx or exception), the deletion
result — `success = False` with an error message — is recorded in the
site's result structure, yet the function still proceeds to both
opportunity creations for that site: successful deletion is not a
precondition for creation. -/
theorem delete_failure_nonblocking (env : SiteEnv) (n : Nat)
    (sid oid : String)
    (hl : env.lookupOutcome = .ok (200, some sid))
    (hsid : sid ≠ "")
    (hls : env.deleteEnv.listStatus = 200)
    (hm : oid ∈ cleanIds env.deleteEnv.opportunities)
    (hb : isBadDelete (env.deleteEnv.deleteStatus oid) = true) :
    (process_site env n).1.deleted = some (delete_opportunities env.deleteEnv)
  ∧ (delete_opportunities env.deleteEnv).success = false
  ∧ (delete_opportunities env.deleteEnv).error.isSome = true
  ∧ (process_site env n).1.opportunities
      = [("broken_links", opptEntryOf env.brokenLinksOutcome),
         ("low_ctr", lowCtrEntry env)]
  ∧ (process_site env n).1.error = none := by
  have hmem : oid ∈ (deleteResults env.deleteEnv.deleteStatus
      (cleanIds env.deleteEnv.opportunities)).2 :=
    deleteResults_failed_mem env.deleteEnv.deleteStatus _ oid hm hb
  have hne : (deleteResults env.deleteEnv.deleteStatus
      (cleanIds env.deleteEnv.opportunities)).2.isEmpty = false := by
    cases hfl : (deleteResults env.deleteEnv.deleteStatus
        (cleanIds env.deleteEnv.opportunities)).2 with
    | nil => rw [hfl] at hmem; cases hmem
    | cons y ys => simp
  have hdel : (delete_opportunities env.deleteEnv).success = false
      ∧ (delete_opportunities env.deleteEnv).error.isSome = true := by
    rw [delete_opportunities, if_neg (by simp [hls])]
    simp [hne]
  have hts : truthyStr (some sid) = some sid := by
    simp [truthyStr, hsid]
  refine ⟨?_, hdel.1, hdel.2, ?_, ?_⟩ <;>
    simp [process_site, hl, hts]

/-- Concrete inputs for the witness: lookup finds site `"site-1"`, the
single opportunity `"opp-1"` fails to delete with a 500. -/
def failingDeleteSiteEnv : SiteEnv :=
  { lookupOutcome := .ok (200, some "site-1"),
    deleteEnv := ⟨200, [some "opp-1"], fun _ => .ok 500⟩,
    brokenLinksOutcome := .ok (),
    lowCtrFileExists := false,
    lowCtrOutcome := .ok () }

/-- Closed witness for `delete_failure_nonblocking`. -/
theorem delete_failure_nonblocking_witness :
    (process_site failingDeleteSiteEnv 7).1.deleted
        = some (delete_opportunities failingDeleteSiteEnv.deleteEnv)
  ∧ (delete_opportunities failingDeleteSiteEnv.deleteEnv).success = false
  ∧ (delete_opportunities failingDeleteSiteEnv.deleteEnv).error.isSome = true
  ∧ (process_site failingDeleteSiteEnv 7).1.opportunities
      = [("broken_links", opptEntryOf failingDeleteSiteEnv.brokenLinksOutcome),
         ("low_ctr", lowCtrEntry failingDeleteSiteEnv)]
  ∧ (process_site failingDeleteSiteEnv 7).1.error = none :=
  delete_failure_nonblocking failingDeleteSiteEnv 7 "site-1" "opp-1"
    rfl (by decide) rfl (by decide) (by decide)

/-! ## Opportunity cloning (`clone_oppt.py`) -/

/-- The opportunity payload fields `clone_opportunity` extracts from the
fixture (`clone_oppt.py:98-111`); `.get` defaults are applied at parse
time, so all fields are total here except the optional `guidance`. -/
structure Opportunity where
  auditId : String
  runbook : String
  opptType : String
  origin : String
  title : String
  description : String
  tags : List String
  data : String
  guidance : Option String
deriving Repr, DecidableEq

/-- One suggestion record of the fixture: the `opportunityId` field the
script rewrites, the `data.variations[].variationEditPageUrl` values it
scans for Google Doc links, and the rest of the payload, opaque. -/
structure Suggestion where
  opportunityId : String
  variationEditPageUrls : List String
  payload : String
deriving Repr, DecidableEq

/-- A parsed opportunity fixture file: the `opportunity` object (its
absence raises before any request, so a parsed fixture has it) and the
optional `suggestions` array. -/
structure OpptFixture where
  opportunity : Opportunity
  suggestions : Option (List Suggestion)
deriving Repr, DecidableEq

/-- Oracle for the two POSTs of `clone_opportunity` and the
`clone_google_doc` helper: the create response (exception, or the
response body's optional `id`), the suggestions-POST outcome, and the
per-URL result string of `clone_google_doc` (which catches its own
request errors and returns a message). -/
structure CreateOpptEnv where
  createOutcome : Except String (Option String)
  suggestionsOutcome : Except String Unit
  docCloneResult : String → String

/-- What `clone_opportunity` did: the id the server assigned, the exact
body of the suggestions POST (empty when no POST was made), whether that
POST was made, and the Google-Doc clone results. -/
structure CloneOpportunityResult where
  opportunityId : Option String
  postedSuggestions : List Suggestion
  suggestionsPosted : Bool
  googleDocs : List (String × String)
deriving Repr, DecidableEq

/-- `AemSitesOptimizerBackoffice.clone_opportunity`
(`clone_oppt.py:68-180`): POST the opportunity (request errors re-raise);
when the response carries a truthy `id` and the fixture has a
`suggestions` key, clone Google Docs found in the variations, set
`suggestion["opportunityId"] = opportunity_id` on every suggestion, and
POST the mutated list (request errors re-raise). -/
def clone_opportunity (env : CreateOpptEnv) (fx : OpptFixture) :
    Except String CloneOpportunityResult :=
  match env.createOutcome with
  | .error e => .error e
  | .ok idOpt =>
    let oid := truthyStr idOpt
    match oid, fx.suggestions with
    | some opportunity_id, some sgs =>
      let docs := ((sgs.map (fun sg => sg.variationEditPageUrls)).flatten.filter
          (fun u => List.isPrefixOf ("https://docs.google.com".toList) u.toList)).map
          (fun u => (u, env.docCloneResult u))
      let posted := sgs.map (fun sg => { sg with opportunityId := opportunity_id })
      match env.suggestionsOutcome with
      | .error e => .error e
      | .ok _ =>
        .ok { opportunityId := some opportunity_id,
              postedSuggestions := posted,
              suggestionsPosted := true,
              googleDocs := docs }
    | _, _ =>
      .ok { opportunityId := oid, postedSuggestions := [],
            suggestionsPosted := false, googleDocs := [] }

/-- C8: whenever `clone_opportunity` succeeds with a server-assigned
opportunity id, every suggestion it posted has its `opportunityId` field
rewritten to that id; and when suggestions were posted at all, the
posted list is exactly the fixture's suggestions with the foreign key
rewritten. -/
theorem suggestions_foreign_key_rewritten (env : CreateOpptEnv)
    (fx : OpptFixture) (r : CloneOpportunityResult) (oid : String)
    (hok : clone_opportunity env fx = .ok r)
    (hid : r.opportunityId = some oid) :
    (∀ sg ∈ r.postedSuggestions, sg.opportunityId = oid)
  ∧ (r.suggestionsPosted = true →
      ∃ sgs, fx.suggestions = some sgs
        ∧ r.postedSuggestions
            = sgs.map (fun sg => { sg with opportunityId := oid })) := by
  cases hco : env.createOutcome with
  | error e => simp [clone_opportunity, hco] at hok
  | ok idOpt =>
    cases hto : truthyStr idOpt with
    | none =>
      cases hsg : fx.suggestions <;>
        simp only [clone_opportunity, hco, hto, hsg, Except.ok.injEq] at hok <;>
        (subst hok; simp at hid)
    | some opportunity_id =>
      cases hsg : fx.suggestions with
      | none =>
        simp only [clone_opportunity, hco, hto, hsg, Except.ok.injEq] at hok
        subst hok
        exact ⟨by simp, by simp⟩
      | some sgs =>
        cases hso : env.suggestionsOutcome with
        | error e =>
          simp [clone_opportunity, hco, hto, hsg, hso] at hok
        | ok u =>
          simp only [clone_opportunity, hco, hto, hsg, hso,
            Except.ok.injEq] at hok
          subst hok
          obtain rfl : opportunity_id = oid := by simpa using hid
          refine ⟨?_, fun _ => ⟨sgs, rfl, rfl⟩⟩
          intro sg h
          obtain ⟨sg0, _, rfl⟩ := List.mem_map.mp h
          rfl

/-- Concrete inputs for the witness: the server assigns id `"new-opp"`,
the fixture has two suggestions carrying a stale foreign key. -/
def opptEnvW : CreateOpptEnv :=
  { createOutcome := .ok (some "new-opp"),
    suggestionsOutcome := .ok (),
    docCloneResult := fun _ => "cloned" }

def opptFixtureW : OpptFixture :=
  { opportunity :=
      ⟨"audit-1", "runbook", "broken-internal-links", "AUTOMATION",
       "Broken internal links", "desc", [], "data", none⟩,
    suggestions :=
      some [⟨"stale-id-1", ["https://docs.google.com/document/d/abc/edit"], "s1"⟩,
            ⟨"stale-id-2", [], "s2"⟩] }

/-- The result `clone_opportunity opptEnvW opptFixtureW` evaluates to. -/
def opptResultW : CloneOpportunityResult :=
  { opportunityId := some "new-opp",
    postedSuggestions :=
      [⟨"new-opp", ["https://docs.google.com/document/d/abc/edit"], "s1"⟩,
       ⟨"new-opp", [], "s2"⟩],
    suggestionsPosted := true,
    googleDocs := [("https://docs.google.com/document/d/abc/edit", "cloned")] }

set_option maxRecDepth 4096 in
/-- Closed witness for `suggestions_foreign_key_rewritten`. -/
theorem suggestions_foreign_key_rewritten_witness :
    (∀ sg ∈ opptResultW.postedSuggestions, sg.opportunityId = "new-opp")
  ∧ (opptResultW.suggestionsPosted = true →
      ∃ sgs, opptFixtureW.suggestions = some sgs
        ∧ opptResultW.postedSuggestions
            = sgs.map (fun sg => { sg with opportunityId := "new-opp" })) :=
  suggestions_foreign_key_rewritten opptEnvW opptFixtureW opptResultW
    "new-opp" rfl rfl

/-! ## Output artifacts (`json.dump` reports, `csv.DictWriter` output) -/

/-- JSON values, as far as the dumped reports need them. -/
inductive JVal where
  | str (s : String)
  | num (n : Nat)
  | bool (b : Bool)
  | null
  | arr (xs : List JVal)
  | obj (fields : List (String × JVal))

/-- Top-level keys of a JSON object. -/
def jKeys : JVal → List String
  | .obj fs => fs.map Prod.fst
  | _ => []

/-- Field access on a JSON object. -/
def jField (j : JVal) (k : String) : Option JVal :=
  match j with
  | .obj fs => fs.lookup k
  | _ => none

def jOptStr : Option String → JVal
  | some s => .str s
  | none => .null

/-- One `results[folder_num]` entry as dumped by `sync_gdrive`
(`create_sites.py:283-331`). -/
def folderResultJson (r : FolderResult) : JVal :=
  .obj ([("status", JVal.str r.status)]
    ++ (match r.folder_id with
        | some fid => [("folder_id", JVal.str fid)]
        | none => [])
    ++ (match r.url with
        | some u => [("url", JVal.str u)]
        | none => [])
    ++ (match r.error with
        | some e => [("error", JVal.str e)]
        | none => []))

/-- The report `sync_gdrive` saves (`create_sites.py:357-365`):
`{"summary": {"success_count", "failure_count", "total_processed"},
"results": {...}}`, built from the loop's outputs, with
`total_processed = end_folder - start_folder`. -/
def sync_gdrive_report (step : GStep) (ds : DriveState) (a b : Nat) : JVal :=
  let run := sync_gdrive_loop step ds a b
  .obj [("summary", .obj
          [("success_count", .num run.1),
           ("failure_count", .num run.2.1),
           ("total_processed", .num (b - a))]),
        ("results", .obj (run.2.2.1.map fun p => (p.1, folderResultJson p.2)))]

def opptEntryJson (e : OpptEntry) : JVal :=
  .obj ([("success", JVal.bool e.success)]
    ++ (match e.error with
        | some s => [("error", JVal.str s)]
        | none => []))

def deleteResultJson (d : DeleteResult) : JVal :=
  .obj ([("success", JVal.bool d.success),
         ("count", JVal.num d.count),
         ("deleted", JVal.arr (d.deletedIds.map JVal.str)),
         ("failed", JVal.arr (d.failedIds.map JVal.str))]
    ++ (match d.error with
        | some s => [("error", JVal.str s)]
        | none => []))

/-- One `results["sites"][site_num]` entry as dumped by
`sync_opportunities` (`create_sites.py:434-532`). -/
def siteResultsJson (r : SiteResults) : JVal :=
  .obj ([("site_num", JVal.str r.site_num),
         ("base_url", JVal.str r.base_url),
         ("site_id", jOptStr r.site_id)]
    ++ (match r.deleted with
        | some d => [("deleted_opportunities", deleteResultJson d)]
        | none => [])
    ++ [("opportunities", JVal.obj (r.opportunities.map
          fun p => (p.1, opptEntryJson p.2)))]
    ++ (match r.error with
        | some e => [("error", JVal.str e)]
        | none => []))

/-- The report `sync_opportunities` saves (`create_sites.py:410-417`,
`544-548`): the `results` dict initialised with top-level `summary`
(`total_sites`, `success_count`, `failure_count`) and `sites`. -/
def sync_opportunities_report (envs : Nat → SiteEnv) (a b : Nat) : JVal :=
  let run := sync_oppts_loop envs a b
  .obj [("summary", .obj
          [("total_sites", .num (b - a)),
           ("success_count", .num run.1),
           ("failure_count", .num run.2.1)]),
        ("sites", .obj (run.2.2.map fun p => (p.1, siteResultsJson p.2)))]

/-- One row of the `update_sites_csv` output. -/
structure CsvEntry where
  id : String
  baseURL : String
  baseDocURL : String
deriving Repr, DecidableEq

/-- The `fieldnames` of `update_sites_csv` (`create_sites.py:677` and
`807`). -/
def csvFieldnames : List String := ["id", "baseURL", "baseDocURL"]

/-- The rewrite phase of `update_sites_csv` (`create_sites.py:805-812`):
`writeheader()` followed by one row per updated entry, in the declared
field order. -/
def update_sites_csv_rows (entries : List CsvEntry) : List (List String) :=
  csvFieldnames :: entries.map (fun e => [e.id, e.baseURL, e.baseDocURL])

/-- C9: the CSV written by `update_sites_csv` starts with exactly the
header `id,baseURL,baseDocURL` (every row carrying those three columns);
the report of `sync_gdrive` has top-level keys `summary` (with
`success_count`, `failure_count`, `total_processed`) and `results`; and
the report of `sync_opportunities` has top-level keys `summary` and
`sites`. -/
theorem report_and_csv_shapes (entries : List CsvEntry) (step : GStep)
    (ds : DriveState) (envs : Nat → SiteEnv) (a b : Nat) :
    (update_sites_csv_rows entries).head? = some ["id", "baseURL", "baseDocURL"]
  ∧ (∀ row ∈ update_sites_csv_rows entries, row.length = 3)
  ∧ jKeys (sync_gdrive_report step ds a b) = ["summary", "results"]
  ∧ (jField (sync_gdrive_report step ds a b) "summary").map jKeys
      = some ["success_count", "failure_count", "total_processed"]
  ∧ jKeys (sync_opportunities_report envs a b) = ["summary", "sites"]
  ∧ (jField (sync_opportunities_report envs a b) "summary").map jKeys
      = some ["total_sites", "success_count", "failure_count"] := by
  refine ⟨rfl, ?_, rfl, rfl, rfl, rfl⟩
  intro row hrow
  rcases List.mem_cons.mp hrow with h | h
  · subst h; rfl
  · obtain ⟨e, _, rfl⟩ := List.mem_map.mp h
    rfl

/-- Concrete CSV entries for the witness below. -/
def csvEntriesW : List CsvEntry :=
  [⟨"site-id-1", "https://main--wknd-summit2025--adobe.aem.live/lab-337/001/",
    "https://docs.google.com/document/d/x/edit"⟩]

/-- Closed witness for `report_and_csv_shapes`. -/
theorem report_and_csv_shapes_witness :
    (update_sites_csv_rows csvEntriesW).head?
        = some ["id", "baseURL", "baseDocURL"]
  ∧ (∀ row ∈ update_sites_csv_rows csvEntriesW, row.length = 3)
  ∧ jKeys (sync_gdrive_report raisingStep driveW 0 2) = ["summary", "results"]
  ∧ (jField (sync_gdrive_report raisingStep driveW 0 2) "summary").map jKeys
      = some ["success_count", "failure_count", "total_processed"]
  ∧ jKeys (sync_opportunities_report (fun _ => raisingSiteEnv) 0 2)
      = ["summary", "sites"]
  ∧ (jField (sync_opportunities_report (fun _ => raisingSiteEnv) 0 2)
        "summary").map jKeys
      = some ["total_sites", "success_count", "failure_count"] :=
  report_and_csv_shapes csvEntriesW raisingStep driveW (fun _ => raisingSiteEnv) 0 2

end SummitLab
